import Mathlib

/-!
Verification of the statistical comparison core of lab-assistant.

The core lives in src/math.js: descriptive statistics (calculateMean,
calculateStandardDeviation), a display-rounding helper (round), a p-value
rating helper (ratePValue), and the comparative analyser (analyseResults),
which chooses a one-sided alternative from the two sample means, delegates
the Welch t-test to the external ttest library, guards against NaN
p-values, and prints a verdict.

Numbers are modelled as exact rationals.  The external ttest library is not
part of the repository sources; analyseResults is therefore parametrised by
an arbitrary test function producing either a numeric p-value or NaN, and
properties of the library itself (NaN on degenerate zero-variance input,
swap symmetry of Welch's test) are taken as hypotheses modelled from the
specification's description of that collaborator.
-/

namespace LabAssistant

/-- Maximum p-value considered "significant" (src/math.js line 6). -/
def BASE_SIGNIFICANCE : ℚ := 0.05

/-- Qualitatively rates a p-value in English (src/math.js lines 15-21). -/
def ratePValue (pValue : ℚ) : String :=
  if pValue > BASE_SIGNIFICANCE then
    "Not significant"
  else if pValue > 0.01 then "Significant" else "Very significant"

/-- Calculates the mean for an array of values (src/math.js lines 30-32).
JavaScript's reduce without an initial value starts from the first element
and throws on an empty array; the empty case is junk here and every theorem
about it assumes a non-empty list. -/
def calculateMean (values : List ℚ) : ℚ :=
  match values with
  | [] => 0
  | v :: vs => vs.foldl (fun sum value => sum + value) v / (values.length : ℚ)

/-- Calculates the standard deviation for an array of values
(src/math.js lines 42-49).  The optional mean argument mirrors the
JavaScript default parameter mean = null: none means "not supplied". -/
noncomputable def calculateStandardDeviation (values : List ℚ) (mean : Option ℚ) : ℝ :=
  let m := match mean with
    | some m => m
    | none => calculateMean values
  let variance :=
    values.foldl (fun sum value => sum + (value - m) ^ 2) 0 / (values.length : ℚ)
  Real.sqrt (variance : ℝ)

/-- JavaScript's Math.round: nearest integer, ties (fraction exactly one
half) rounded toward positive infinity. -/
def mathRound (value : ℚ) : ℤ := ⌊value + 1 / 2⌋

/-- Rounds a number to a specified level of precision, decimal places
(src/math.js lines 59-62).  The source defaults precision to 2; callers
here pass it explicitly. -/
def round (value : ℚ) (precision : ℕ) : ℚ :=
  let power : ℚ := 10 ^ precision
  (mathRound (value * power) : ℚ) / power

/-- Rounding as the specification's words describe it for claim C8:
"round half away from zero on the scaled integer".  This is the
spec-side definition, to be compared with round above. -/
def roundHalfAwayFromZero (value : ℚ) (precision : ℕ) : ℚ :=
  let power : ℚ := 10 ^ precision
  let scaled := value * power
  let n : ℤ := if 0 ≤ scaled then ⌊scaled + 1 / 2⌋ else ⌈scaled - 1 / 2⌉
  (n : ℚ) / power

/-- The one-sided alternative passed to the external ttest library. -/
inductive Alt
  | less
  | greater
deriving DecidableEq

/-- A JavaScript p-value: either a number or NaN. -/
inductive PVal
  | num (q : ℚ)
  | nan
deriving DecidableEq

/-- Number.isNaN on a p-value. -/
def PVal.isNaN : PVal → Bool
  | .num _ => false
  | .nan => true

/-- The numeric content of a non-NaN p-value, 0 on NaN. -/
def PVal.getQ : PVal → ℚ
  | .num q => q
  | .nan => 0

/-- The JavaScript comparison pValue > q: any comparison with NaN is false. -/
def PVal.gtQ : PVal → ℚ → Bool
  | .num p, q => decide (q < p)
  | .nan, _ => false

/-- The external ttest collaborator: samples and an alternative in,
a p-value out. -/
def TTest : Type := List ℚ → List ℚ → Alt → PVal

/-- The options object consumed by the output helper (src/unnamed/part_001). -/
structure OutputOptions where
  verbose : Bool
deriving DecidableEq

/-- Whether the verbose helper prints: !options || options.verbose
(src/unnamed/part_001 lines 58-62). -/
def verbosePrints (options : Option OutputOptions) : Bool :=
  match options with
  | none => true
  | some o => o.verbose

/-- One line of console output from analyseResults, with the numeric and
textual content the source interpolates into the line. -/
inductive ReportLine
  | activeHypothesis (directionText : String)
  | statSignificance (rating : String) (pValue : ℚ)
  | noSignificantDifference
  | variabilityHint1
  | variabilityHint2
  | newVersionIs (directionText : String)
  | percentFaster (pct : ℚ) (ratio : ℚ)
  | percentSlower (pct : ℚ) (ratio : ℚ)
deriving DecidableEq

/-- The observable outcome of one analyseResults call: the verdict fields,
the lines handed to the verbose helper, the final verdict lines, the lines
actually printed to stdout, the error output and the exit code. -/
structure AnalysisOutcome where
  direction : ℤ
  alternative : Option Alt
  pValue : PVal
  hypLines : List ReportLine
  verdictLines : List ReportLine
  stdout : List ReportLine
  errorLines : List String
  exitCode : Option ℤ
deriving DecidableEq

/-- The reporting phase of analyseResults (src/math.js lines 94-145):
direction text, NaN guard, verbose hypothesis lines, verdict lines. -/
def reportResults (options : Option OutputOptions) (oldMean newMean : ℚ)
    (direction : ℤ) (alternative : Option Alt) (pValue : PVal) : AnalysisOutcome :=
  let directionText := if direction = 1 then "FASTER" else "SLOWER"
  if pValue.isNaN then
    { direction := direction
      alternative := alternative
      pValue := pValue
      hypLines := []
      verdictLines := []
      stdout := []
      errorLines := ["Error: p-value is NaN."]
      exitCode := some (-1) }
  else
    let hypLines :=
      if direction ≠ 0 then
        [ReportLine.activeHypothesis directionText,
         ReportLine.statSignificance (ratePValue pValue.getQ) pValue.getQ]
      else []
    let verdictLines :=
      if direction = 0 then
        [ReportLine.noSignificantDifference]
      else if pValue.gtQ BASE_SIGNIFICANCE then
        [ReportLine.noSignificantDifference,
         ReportLine.variabilityHint1,
         ReportLine.variabilityHint2]
      else
        ReportLine.newVersionIs directionText ::
          (if direction = 1 then
            [ReportLine.percentFaster (round ((1 - newMean / oldMean) * 100) 2)
              (round (newMean / oldMean * 100) 2)]
          else
            [ReportLine.percentSlower (round ((newMean / oldMean - 1) * 100) 2)
              (round (newMean / oldMean * 100) 2)])
    { direction := direction
      alternative := alternative
      pValue := pValue
      hypLines := hypLines
      verdictLines := verdictLines
      stdout := (if verbosePrints options then hypLines else []) ++ verdictLines
      errorLines := []
      exitCode := none }

/-- Analyses the results between new version and old version
(src/math.js lines 76-146), parametrised by the external ttest library. -/
def analyseResults (tt : TTest) (options : Option OutputOptions)
    (oldSet newSet : List ℚ) : AnalysisOutcome :=
  let oldMean := calculateMean oldSet
  let newMean := calculateMean newSet
  if oldMean < newMean then
    reportResults options oldMean newMean (-1) (some Alt.less) (tt oldSet newSet Alt.less)
  else if oldMean > newMean then
    reportResults options oldMean newMean 1 (some Alt.greater) (tt oldSet newSet Alt.greater)
  else
    reportResults options oldMean newMean 0 none (PVal.num 0)

/-- The significance classification of an outcome's p-value, none on NaN. -/
def significanceOf (r : AnalysisOutcome) : Option String :=
  match r.pValue with
  | .num q => some (ratePValue q)
  | .nan => none

/-- Modelled from the spec: the external ttest library (absent from the
sources) is degenerate on "zero-variance identical samples fed to the test
in a way the test cannot handle"; a sample set has zero variance when the
sum of squared deviations from its mean vanishes. -/
def zeroVariance (values : List ℚ) : Bool :=
  decide (values.foldl (fun sum value => sum + (value - calculateMean values) ^ 2) 0 = 0)

/-- A concrete instance of the spec-modelled ttest collaborator: NaN exactly
on zero-variance sample pairs, a numeric p-value otherwise. -/
def degenerateTTest : TTest :=
  fun a b _ => if zeroVariance a && zeroVariance b then PVal.nan else PVal.num 0

/-- Claim C3: ratePValue classifies exactly by the boundaries p > 0.05 for
"Not significant", 0.01 < p <= 0.05 for "Significant", p <= 0.01 for
"Very significant"; in particular 0.05 rates "Significant" and 0.01 rates
"Very significant". -/
theorem ratePValue_classification (p : ℚ) :
    (ratePValue p = "Not significant" ↔ p > 0.05) ∧
    (ratePValue p = "Significant" ↔ 0.01 < p ∧ p ≤ 0.05) ∧
    (ratePValue p = "Very significant" ↔ p ≤ 0.01) ∧
    ratePValue (0.05 : ℚ) = "Significant" ∧
    ratePValue (0.01 : ℚ) = "Very significant" := by
  refine ⟨?_, ?_, ?_, by norm_num [ratePValue, BASE_SIGNIFICANCE],
    by norm_num [ratePValue, BASE_SIGNIFICANCE]⟩ <;>
    · unfold ratePValue BASE_SIGNIFICANCE
      split_ifs with h1 h2 <;> simp_all <;> linarith

lemma analyseResults_of_lt {oldSet newSet : List ℚ} (tt : TTest)
    (options : Option OutputOptions)
    (h : calculateMean oldSet < calculateMean newSet) :
    analyseResults tt options oldSet newSet =
      reportResults options (calculateMean oldSet) (calculateMean newSet)
        (-1) (some Alt.less) (tt oldSet newSet Alt.less) := by
  unfold analyseResults
  rw [if_pos h]

lemma analyseResults_of_gt {oldSet newSet : List ℚ} (tt : TTest)
    (options : Option OutputOptions)
    (h : calculateMean newSet < calculateMean oldSet) :
    analyseResults tt options oldSet newSet =
      reportResults options (calculateMean oldSet) (calculateMean newSet)
        1 (some Alt.greater) (tt oldSet newSet Alt.greater) := by
  unfold analyseResults
  rw [if_neg (not_lt.mpr h.le), if_pos h]

lemma analyseResults_of_eq {oldSet newSet : List ℚ} (tt : TTest)
    (options : Option OutputOptions)
    (h : calculateMean oldSet = calculateMean newSet) :
    analyseResults tt options oldSet newSet =
      reportResults options (calculateMean oldSet) (calculateMean newSet)
        0 none (PVal.num 0) := by
  unfold analyseResults
  rw [if_neg (h ▸ lt_irrefl _), if_neg (h ▸ lt_irrefl _)]

lemma reportResults_direction (options : Option OutputOptions) (oldMean newMean : ℚ)
    (d : ℤ) (alt : Option Alt) (p : PVal) :
    (reportResults options oldMean newMean d alt p).direction = d := by
  cases p <;> rfl

lemma reportResults_alternative (options : Option OutputOptions) (oldMean newMean : ℚ)
    (d : ℤ) (alt : Option Alt) (p : PVal) :
    (reportResults options oldMean newMean d alt p).alternative = alt := by
  cases p <;> rfl

lemma reportResults_pValue (options : Option OutputOptions) (oldMean newMean : ℚ)
    (d : ℤ) (alt : Option Alt) (p : PVal) :
    (reportResults options oldMean newMean d alt p).pValue = p := by
  cases p <;> rfl

/-- Claim C1: analyseResults selects the direction from the two means:
oldMean < newMean runs the test with alternative less and direction -1
(SLOWER); oldMean > newMean runs it with alternative greater and
direction 1 (FASTER); direction 0 (NONE) exactly when the means are
identical. -/
theorem analyseResults_direction_selection (tt : TTest)
    (options : Option OutputOptions) (oldSet newSet : List ℚ)
    (_hOld : oldSet ≠ []) (_hNew : newSet ≠ []) :
    (calculateMean oldSet < calculateMean newSet →
      (analyseResults tt options oldSet newSet).direction = -1 ∧
      (analyseResults tt options oldSet newSet).alternative = some Alt.less ∧
      (analyseResults tt options oldSet newSet).pValue = tt oldSet newSet Alt.less) ∧
    (calculateMean newSet < calculateMean oldSet →
      (analyseResults tt options oldSet newSet).direction = 1 ∧
      (analyseResults tt options oldSet newSet).alternative = some Alt.greater ∧
      (analyseResults tt options oldSet newSet).pValue = tt oldSet newSet Alt.greater) ∧
    ((analyseResults tt options oldSet newSet).direction = 0 ↔
      calculateMean oldSet = calculateMean newSet) := by
  rcases lt_trichotomy (calculateMean oldSet) (calculateMean newSet) with h | h | h
  · rw [analyseResults_of_lt tt options h]
    refine ⟨fun _ => ⟨?_, ?_, ?_⟩, fun hc => absurd hc (not_lt.mpr h.le), ?_⟩ <;>
      simp [reportResults_direction, reportResults_alternative, reportResults_pValue]
    exact fun hc => absurd hc (ne_of_lt h)
  · rw [analyseResults_of_eq tt options h]
    refine ⟨fun hc => absurd hc (h ▸ lt_irrefl _),
      fun hc => absurd hc (h ▸ lt_irrefl _), ?_⟩
    simp [reportResults_direction, h]
  · rw [analyseResults_of_gt tt options h]
    refine ⟨fun hc => absurd hc (not_lt.mpr h.le), fun _ => ⟨?_, ?_, ?_⟩, ?_⟩ <;>
      simp [reportResults_direction, reportResults_alternative, reportResults_pValue]
    exact fun hc => absurd hc (ne_of_gt h)

/-- Witness for C1: at oldSet = [1, 1], newSet = [2, 2] the hypotheses hold
and the selection picks alternative less with direction -1. -/
theorem analyseResults_direction_selection_witness :
    (([1, 1] : List ℚ) ≠ [] ∧ ([2, 2] : List ℚ) ≠ []) ∧
    ((analyseResults (fun _ _ _ => PVal.num 0) none [1, 1] [2, 2]).direction = -1 ∧
     (analyseResults (fun _ _ _ => PVal.num 0) none [1, 1] [2, 2]).alternative =
       some Alt.less) :=
  ⟨⟨by simp, by simp⟩, by
    have h' := (analyseResults_direction_selection (fun _ _ _ => PVal.num 0) none
      [1, 1] [2, 2] (by simp) (by simp)).1
      (by norm_num [calculateMean, List.foldl])
    exact ⟨h'.1, h'.2.1⟩⟩

/-- Claim C4: with exactly equal means analyseResults skips the test
(no alternative), treats the p-value as 0, prints only the single
"no significant difference" line — no directional language, no
percentage figure, no verbose hypothesis lines — and does not exit. -/
theorem analyseResults_equal_means (tt : TTest)
    (options : Option OutputOptions) (oldSet newSet : List ℚ)
    (_hOld : oldSet ≠ []) (_hNew : newSet ≠ [])
    (h : calculateMean oldSet = calculateMean newSet) :
    (analyseResults tt options oldSet newSet).alternative = none ∧
    (analyseResults tt options oldSet newSet).pValue = PVal.num 0 ∧
    (analyseResults tt options oldSet newSet).hypLines = [] ∧
    (analyseResults tt options oldSet newSet).verdictLines =
      [ReportLine.noSignificantDifference] ∧
    (analyseResults tt options oldSet newSet).stdout =
      [ReportLine.noSignificantDifference] ∧
    (analyseResults tt options oldSet newSet).errorLines = [] ∧
    (analyseResults tt options oldSet newSet).exitCode = none := by
  rw [analyseResults_of_eq tt options h]
  refine ⟨?_, ?_, ?_, ?_, ?_, ?_, ?_⟩ <;>
    simp [reportResults, PVal.isNaN]

/-- Witness for C4: at oldSet = [3, 5], newSet = [4, 4] (both means 4) the
analysis prints exactly the single no-difference line. -/
theorem analyseResults_equal_means_witness :
    (([3, 5] : List ℚ) ≠ [] ∧ ([4, 4] : List ℚ) ≠ [] ∧
      calculateMean [3, 5] = calculateMean [4, 4]) ∧
    (analyseResults (fun _ _ _ => PVal.num 0) none [3, 5] [4, 4]).stdout =
      [ReportLine.noSignificantDifference] :=
  ⟨⟨by simp, by simp, by norm_num [calculateMean, List.foldl]⟩,
    (analyseResults_equal_means (fun _ _ _ => PVal.num 0) none [3, 5] [4, 4]
      (by simp) (by simp) (by norm_num [calculateMean, List.foldl])).2.2.2.2.1⟩

lemma reportResults_nan_fields (options : Option OutputOptions)
    (oldMean newMean : ℚ) (d : ℤ) (alt : Option Alt) :
    reportResults options oldMean newMean d alt PVal.nan =
      { direction := d
        alternative := alt
        pValue := PVal.nan
        hypLines := []
        verdictLines := []
        stdout := []
        errorLines := ["Error: p-value is NaN."]
        exitCode := some (-1) } := rfl

lemma calculateMean_c100 :
    calculateMean [100, 100, 100, 100, 100] = 100 := by
  norm_num [calculateMean, List.foldl]

lemma calculateMean_c80 :
    calculateMean [80, 80, 80, 80, 80] = 80 := by
  norm_num [calculateMean, List.foldl]

lemma zeroVariance_c100 : zeroVariance [100, 100, 100, 100, 100] = true := by
  simp [zeroVariance, calculateMean_c100, List.foldl]

lemma zeroVariance_c80 : zeroVariance [80, 80, 80, 80, 80] = true := by
  simp [zeroVariance, calculateMean_c80, List.foldl]

/-- Claim C2: whenever the computed p-value is NaN, analyseResults exits
with code -1 after printing an error, and prints no verdict lines at all;
in particular, with a test collaborator that is degenerate (NaN) on
zero-variance samples, the run on oldSet = [100,100,100,100,100],
newSet = [80,80,80,80,80] exits with the error instead of reporting a
significant result. -/
theorem analyseResults_nan_guard (tt : TTest) (options : Option OutputOptions)
    (oldSet newSet : List ℚ)
    (hnan : (analyseResults tt options oldSet newSet).pValue = PVal.nan)
    (hdeg : ∀ a b alt, zeroVariance a = true → zeroVariance b = true →
      tt a b alt = PVal.nan) :
    ((analyseResults tt options oldSet newSet).exitCode = some (-1) ∧
     (analyseResults tt options oldSet newSet).errorLines =
       ["Error: p-value is NaN."] ∧
     (analyseResults tt options oldSet newSet).stdout = []) ∧
    ((analyseResults tt options [100, 100, 100, 100, 100]
        [80, 80, 80, 80, 80]).exitCode = some (-1) ∧
     (analyseResults tt options [100, 100, 100, 100, 100]
        [80, 80, 80, 80, 80]).errorLines = ["Error: p-value is NaN."] ∧
     (analyseResults tt options [100, 100, 100, 100, 100]
        [80, 80, 80, 80, 80]).stdout = []) := by
  constructor
  · rcases lt_trichotomy (calculateMean oldSet) (calculateMean newSet) with h | h | h
    · rw [analyseResults_of_lt tt options h] at hnan ⊢
      rw [reportResults_pValue] at hnan
      rw [hnan, reportResults_nan_fields]
      exact ⟨rfl, rfl, rfl⟩
    · rw [analyseResults_of_eq tt options h] at hnan
      rw [reportResults_pValue] at hnan
      exact absurd hnan (by simp)
    · rw [analyseResults_of_gt tt options h] at hnan ⊢
      rw [reportResults_pValue] at hnan
      rw [hnan, reportResults_nan_fields]
      exact ⟨rfl, rfl, rfl⟩
  · have hgt : calculateMean [80, 80, 80, 80, 80] <
        calculateMean [100, 100, 100, 100, 100] := by
      rw [calculateMean_c100, calculateMean_c80]; norm_num
    rw [analyseResults_of_gt tt options hgt,
      hdeg _ _ _ zeroVariance_c100 zeroVariance_c80, reportResults_nan_fields]
    exact ⟨rfl, rfl, rfl⟩

/-- Witness for C2: the degenerate collaborator yields a NaN p-value on
oldSet = [1, 1], newSet = [2, 2], and both that run and the scenario run
exit with code -1 printing nothing to stdout. -/
theorem analyseResults_nan_guard_witness :
    ((analyseResults degenerateTTest none [1, 1] [2, 2]).pValue = PVal.nan) ∧
    ((analyseResults degenerateTTest none [1, 1] [2, 2]).exitCode = some (-1) ∧
     (analyseResults degenerateTTest none [1, 1] [2, 2]).stdout = []) ∧
    ((analyseResults degenerateTTest none [100, 100, 100, 100, 100]
        [80, 80, 80, 80, 80]).exitCode = some (-1) ∧
     (analyseResults degenerateTTest none [100, 100, 100, 100, 100]
        [80, 80, 80, 80, 80]).stdout = []) := by
  have hnan : (analyseResults degenerateTTest none [1, 1] [2, 2]).pValue =
      PVal.nan := by
    rw [analyseResults_of_lt degenerateTTest none
      (by norm_num [calculateMean, List.foldl]), reportResults_pValue]
    simp [degenerateTTest, zeroVariance, calculateMean, List.foldl]
  have hdeg : ∀ a b alt, zeroVariance a = true → zeroVariance b = true →
      degenerateTTest a b alt = PVal.nan := by
    intro a b alt ha hb
    simp [degenerateTTest, ha, hb]
  have h := analyseResults_nan_guard degenerateTTest none [1, 1] [2, 2] hnan hdeg
  exact ⟨hnan, ⟨h.1.1, h.1.2.2⟩, ⟨h.2.1, h.2.2.2⟩⟩

/-- Claim C5: for distinct means and a significant numeric p-value, the
verdict lines carry exactly the percentage figures
round((1 - newMean/oldMean) * 100) percent faster with
round(newMean/oldMean * 100) as the ratio figure when the new version is
faster, and round((newMean/oldMean - 1) * 100) percent slower with the
same ratio figure when it is slower. -/
theorem analyseResults_percent_figures (tt : TTest)
    (options : Option OutputOptions) (oldSet newSet : List ℚ) (p : ℚ)
    (_hOld : oldSet ≠ []) (_hNew : newSet ≠ [])
    (hne : calculateMean oldSet ≠ calculateMean newSet)
    (hp : (analyseResults tt options oldSet newSet).pValue = PVal.num p)
    (hsig : p ≤ BASE_SIGNIFICANCE) :
    (analyseResults tt options oldSet newSet).verdictLines =
      if calculateMean newSet < calculateMean oldSet then
        [ReportLine.newVersionIs "FASTER",
         ReportLine.percentFaster
           (round ((1 - calculateMean newSet / calculateMean oldSet) * 100) 2)
           (round (calculateMean newSet / calculateMean oldSet * 100) 2)]
      else
        [ReportLine.newVersionIs "SLOWER",
         ReportLine.percentSlower
           (round ((calculateMean newSet / calculateMean oldSet - 1) * 100) 2)
           (round (calculateMean newSet / calculateMean oldSet * 100) 2)] := by
  have hgt : ¬ (BASE_SIGNIFICANCE < p) := not_lt.mpr hsig
  rcases lt_trichotomy (calculateMean oldSet) (calculateMean newSet) with h | h | h
  · rw [analyseResults_of_lt tt options h] at hp ⊢
    rw [reportResults_pValue] at hp
    rw [hp, if_neg (not_lt.mpr h.le)]
    simp [reportResults, PVal.isNaN, PVal.gtQ, PVal.getQ, hgt]
  · exact absurd h hne
  · rw [analyseResults_of_gt tt options h] at hp ⊢
    rw [reportResults_pValue] at hp
    rw [hp, if_pos h]
    simp [reportResults, PVal.isNaN, PVal.gtQ, PVal.getQ, hgt]

/-- Witness for C5: at oldSet = [100, 100], newSet = [80, 80] with
p-value 0.01 the verdict reports 20 percent faster, taking 80 percent of
the old version's time. -/
theorem analyseResults_percent_figures_witness :
    (calculateMean ([100, 100] : List ℚ) ≠ calculateMean ([80, 80] : List ℚ) ∧
      (analyseResults (fun _ _ _ => PVal.num 0.01) none
        [100, 100] [80, 80]).pValue = PVal.num 0.01 ∧
      (0.01 : ℚ) ≤ BASE_SIGNIFICANCE) ∧
    (analyseResults (fun _ _ _ => PVal.num 0.01) none
        [100, 100] [80, 80]).verdictLines =
      [ReportLine.newVersionIs "FASTER", ReportLine.percentFaster 20 80] := by
  have hne : calculateMean ([100, 100] : List ℚ) ≠
      calculateMean ([80, 80] : List ℚ) := by
    norm_num [calculateMean, List.foldl]
  have hp : (analyseResults (fun _ _ _ => PVal.num 0.01) none
      [100, 100] [80, 80]).pValue = PVal.num 0.01 := by
    rw [analyseResults_of_gt _ none (by norm_num [calculateMean, List.foldl]),
      reportResults_pValue]
  have hsig : (0.01 : ℚ) ≤ BASE_SIGNIFICANCE := by
    norm_num [BASE_SIGNIFICANCE]
  have h := analyseResults_percent_figures (fun _ _ _ => PVal.num 0.01) none
    [100, 100] [80, 80] 0.01 (by simp) (by simp) hne hp hsig
  rw [if_pos (by norm_num [calculateMean, List.foldl])] at h
  refine ⟨⟨hne, hp, hsig⟩, ?_⟩
  rw [h]
  norm_num [calculateMean, List.foldl, round, mathRound]

/-- Claim C6: for distinct means, swapping the two sample sets negates the
direction and preserves the p-value, hence the significance
classification, provided the external test satisfies the swap symmetry of
Welch's one-sided test. -/
theorem analyseResults_swap_symmetry (tt : TTest)
    (options : Option OutputOptions) (oldSet newSet : List ℚ)
    (hne : calculateMean oldSet ≠ calculateMean newSet)
    (hsym : ∀ a b, tt b a Alt.greater = tt a b Alt.less ∧
      tt b a Alt.less = tt a b Alt.greater) :
    (analyseResults tt options newSet oldSet).direction =
      -(analyseResults tt options oldSet newSet).direction ∧
    (analyseResults tt options newSet oldSet).pValue =
      (analyseResults tt options oldSet newSet).pValue ∧
    significanceOf (analyseResults tt options newSet oldSet) =
      significanceOf (analyseResults tt options oldSet newSet) := by
  rcases lt_trichotomy (calculateMean oldSet) (calculateMean newSet) with h | h | h
  · rw [analyseResults_of_lt tt options h, analyseResults_of_gt tt options h,
      (hsym oldSet newSet).1]
    refine ⟨?_, ?_, ?_⟩ <;>
      simp [significanceOf, reportResults_direction, reportResults_pValue]
  · exact absurd h hne
  · rw [analyseResults_of_gt tt options h, analyseResults_of_lt tt options h,
      (hsym oldSet newSet).2]
    refine ⟨?_, ?_, ?_⟩ <;>
      simp [significanceOf, reportResults_direction, reportResults_pValue]

/-- Witness for C6: at oldSet = [1], newSet = [2] with a constant
(trivially swap-symmetric) test, swapping negates the direction and
preserves p-value and significance. -/
theorem analyseResults_swap_symmetry_witness :
    (calculateMean ([1] : List ℚ) ≠ calculateMean ([2] : List ℚ)) ∧
    ((analyseResults (fun _ _ _ => PVal.num 0.5) none [2] [1]).direction =
      -(analyseResults (fun _ _ _ => PVal.num 0.5) none [1] [2]).direction ∧
     (analyseResults (fun _ _ _ => PVal.num 0.5) none [2] [1]).pValue =
      (analyseResults (fun _ _ _ => PVal.num 0.5) none [1] [2]).pValue ∧
     significanceOf (analyseResults (fun _ _ _ => PVal.num 0.5) none [2] [1]) =
      significanceOf (analyseResults (fun _ _ _ => PVal.num 0.5) none [1] [2])) :=
  ⟨by norm_num [calculateMean, List.foldl],
    analyseResults_swap_symmetry (fun _ _ _ => PVal.num 0.5) none [1] [2]
      (by norm_num [calculateMean, List.foldl]) (fun _ _ => ⟨rfl, rfl⟩)⟩

lemma foldl_sq_dev (m : ℚ) : ∀ (l : List ℚ) (a : ℚ),
    l.foldl (fun sum value => sum + (value - m) ^ 2) a =
      a + (l.map (fun value => (value - m) ^ 2)).sum
  | [], a => by simp
  | x :: xs, a => by
    simp only [List.foldl_cons, List.map_cons, List.sum_cons, foldl_sq_dev m xs]
    ring

/-- Claim C7: calculateStandardDeviation is the population standard
deviation sqrt(sum((x - mean)^2) / N) — dividing by N, no Bessel
correction — and passing the precomputed mean gives the same value as the
one-argument form. -/
theorem calculateStandardDeviation_spec (v : List ℚ) (_h : v ≠ []) :
    calculateStandardDeviation v (some (calculateMean v)) =
      calculateStandardDeviation v none ∧
    calculateStandardDeviation v none =
      Real.sqrt ((((v.map (fun x => (x - calculateMean v) ^ 2)).sum /
        (v.length : ℚ) : ℚ) : ℝ)) := by
  constructor
  · rfl
  · simp only [calculateStandardDeviation]
    rw [foldl_sq_dev (calculateMean v) v 0, zero_add]

/-- Witness for C7: at v = [1, 3] both forms agree and equal the population
formula. -/
theorem calculateStandardDeviation_spec_witness :
    (([1, 3] : List ℚ) ≠ []) ∧
    (calculateStandardDeviation ([1, 3] : List ℚ)
        (some (calculateMean ([1, 3] : List ℚ))) =
      calculateStandardDeviation ([1, 3] : List ℚ) none ∧
     calculateStandardDeviation ([1, 3] : List ℚ) none =
      Real.sqrt ((((([1, 3] : List ℚ).map
          (fun x => (x - calculateMean ([1, 3] : List ℚ)) ^ 2)).sum /
        ((([1, 3] : List ℚ).length : ℚ)) : ℚ) : ℝ))) :=
  ⟨by simp, calculateStandardDeviation_spec ([1, 3] : List ℚ) (by simp)⟩

/-- Counterexample to claim C8 as stated: at value -1/2 with precision 0
the source rounds to 0 — JavaScript's Math.round sends ties toward
positive infinity — while rounding the tie away from zero, as the claim
states, yields -1. -/
theorem round_ties_counterexample :
    round (-(1 / 2) : ℚ) 0 = 0 ∧
    roundHalfAwayFromZero (-(1 / 2) : ℚ) 0 = -1 ∧
    round (-(1 / 2) : ℚ) 0 ≠ roundHalfAwayFromZero (-(1 / 2) : ℚ) 0 := by
  have hceil : ⌈(-1 : ℚ)⌉ = -1 := by
    rw [show ((-1 : ℚ)) = ((-1 : ℤ) : ℚ) by norm_num, Int.ceil_intCast]
  norm_num [round, roundHalfAwayFromZero, mathRound, hceil]

/-- Claim C8 (amended): round scales by 10^precision, rounds the scaled
value to the nearest integer with ties (exact halves) toward positive
infinity — the rounded integer n satisfies -1/2 <= scaled - n < 1/2 — and
divides back by 10^precision. -/
theorem round_nearest_ties_up (x : ℚ) (p : ℕ) :
    ∃ n : ℤ, round x p = (n : ℚ) / 10 ^ p ∧
      -(1 / 2) ≤ x * 10 ^ p - (n : ℚ) ∧ x * 10 ^ p - (n : ℚ) < 1 / 2 := by
  refine ⟨mathRound (x * 10 ^ p), rfl, ?_, ?_⟩
  · have h := Int.floor_le (x * 10 ^ p + 1 / 2)
    unfold mathRound
    linarith
  · have h := Int.lt_floor_add_one (x * 10 ^ p + 1 / 2)
    unfold mathRound
    push_cast at h
    linarith

/-- Claim C9: round is idempotent — rounding an already rounded value at
the same precision returns it unchanged. -/
theorem round_idempotent (x : ℚ) (p : ℕ) :
    round (round x p) p = round x p := by
  simp only [round, mathRound]
  have hpow : ((10 : ℚ) ^ p) ≠ 0 := by positivity
  rw [div_mul_cancel₀ _ hpow, Int.floor_int_add]
  norm_num

/-- Claim C10: the verdict — direction, p-value, significance, verdict
lines, error output, exit code — is the same whether or not the verbose
option is set; the flag only controls whether the hypothesis and
significance lines are printed before the verdict, and those lines are
absent whenever direction is 0. -/
theorem analyseResults_verbose_independence (tt : TTest)
    (oldSet newSet : List ℚ) :
    (analyseResults tt (some ⟨true⟩) oldSet newSet).direction =
      (analyseResults tt (some ⟨false⟩) oldSet newSet).direction ∧
    (analyseResults tt (some ⟨true⟩) oldSet newSet).pValue =
      (analyseResults tt (some ⟨false⟩) oldSet newSet).pValue ∧
    significanceOf (analyseResults tt (some ⟨true⟩) oldSet newSet) =
      significanceOf (analyseResults tt (some ⟨false⟩) oldSet newSet) ∧
    (analyseResults tt (some ⟨true⟩) oldSet newSet).verdictLines =
      (analyseResults tt (some ⟨false⟩) oldSet newSet).verdictLines ∧
    (analyseResults tt (some ⟨true⟩) oldSet newSet).errorLines =
      (analyseResults tt (some ⟨false⟩) oldSet newSet).errorLines ∧
    (analyseResults tt (some ⟨true⟩) oldSet newSet).exitCode =
      (analyseResults tt (some ⟨false⟩) oldSet newSet).exitCode ∧
    (analyseResults tt (some ⟨false⟩) oldSet newSet).stdout =
      (analyseResults tt (some ⟨false⟩) oldSet newSet).verdictLines ∧
    (analyseResults tt (some ⟨true⟩) oldSet newSet).stdout =
      (analyseResults tt (some ⟨true⟩) oldSet newSet).hypLines ++
        (analyseResults tt (some ⟨true⟩) oldSet newSet).verdictLines ∧
    ((analyseResults tt (some ⟨true⟩) oldSet newSet).direction = 0 →
      (analyseResults tt (some ⟨true⟩) oldSet newSet).hypLines = []) := by
  rcases lt_trichotomy (calculateMean oldSet) (calculateMean newSet) with h | h | h
  · rw [analyseResults_of_lt tt (some ⟨true⟩) h,
      analyseResults_of_lt tt (some ⟨false⟩) h]
    cases htt : tt oldSet newSet Alt.less <;>
      simp [reportResults, significanceOf, PVal.isNaN, verbosePrints]
  · rw [analyseResults_of_eq tt (some ⟨true⟩) h,
      analyseResults_of_eq tt (some ⟨false⟩) h]
    simp [reportResults, significanceOf, PVal.isNaN, verbosePrints]
  · rw [analyseResults_of_gt tt (some ⟨true⟩) h,
      analyseResults_of_gt tt (some ⟨false⟩) h]
    cases htt : tt oldSet newSet Alt.greater <;>
      simp [reportResults, significanceOf, PVal.isNaN, verbosePrints]

end LabAssistant
